import Mathlib

set_option maxRecDepth 4000

/-!
Verification development for the ZoneWise desktop orchestration core:
a shallow embedding of `packages/agent/langgraph_workflow.py` and
`packages/agent/zonewise_agent.py`, with theorems checking the
natural-language specification against the code.

Python values are rendered as follows: `float` becomes `ℚ`, `int` becomes
`ℤ`, `None`-able fields become `Option`, Python `dict` becomes an
association list, raised exceptions become `Except.error`, and the external
reasoning capability (the LLM call) and the YAML parser are oracles passed
in as explicit parameters.  Every retrieval from the document store
(manifest open, file read) is counted so that caching claims can be stated.
-/

/-! ### Python-semantics helpers -/

/-- Truthiness of a Python `float | None` value: `None` and `0.0` are falsy. -/
def pyTruthyQ : Option ℚ → Bool
  | none => false
  | some v => v != 0

/-- Python `x or default` for an optional string (empty string is falsy). -/
def pyOrStr (o : Option String) (d : String) : String :=
  match o with
  | some s => if s = "" then d else s
  | none => d

/-- Fractional digits of a rational in `[0, 1)`, fuel-bounded (Python floats
always terminate well within the fuel used here). -/
def fracDigits : Nat → ℚ → List Char
  | 0, _ => []
  | fuel + 1, q =>
    if q = 0 then []
    else
      let q10 := q * 10
      let d : Nat := (Int.floor q10).toNat
      Char.ofNat (48 + d) :: fracDigits fuel (q10 - Int.floor q10)

/-- Rendering of a Python float by `str`, e.g. `str(35.0) = "35.0"`,
`str(8.5) = "8.5"`. -/
def pyFloatStr (q : ℚ) : String :=
  let sign := if q < 0 then "-" else ""
  let a := if q < 0 then -q else q
  let ip : Nat := (Int.floor a).toNat
  let ds := fracDigits 17 (a - Int.floor a)
  sign ++ toString ip ++ "." ++ (if ds.isEmpty then "0" else String.mk ds)

/-- Python `x or default` for an optional float rendered into an f-string. -/
def pyOrNum (o : Option ℚ) (d : String) : String :=
  match o with
  | some v => if v = 0 then d else pyFloatStr v
  | none => d

/-- Round a rational to the nearest integer, ties to even, as Python float
formatting with `.0f` does. -/
def roundHalfEven (q : ℚ) : ℤ :=
  let fl := Int.floor q
  let r := q - fl
  if r < 1/2 then fl
  else if 1/2 < r then fl + 1
  else if fl % 2 = 0 then fl else fl + 1

/-- Insert thousands separators into a reversed digit list. -/
def commaRev : List Char → Nat → List Char
  | [], _ => []
  | [c], _ => [c]
  | c :: rest, k =>
    if k = 2 then c :: ',' :: commaRev rest 0
    else c :: commaRev rest (k + 1)

/-- Python's `f"{x:,.0f}"` formatting: round to integer, group by commas. -/
def fmtComma (q : ℚ) : String :=
  let n := roundHalfEven q
  let sign := if n < 0 then "-" else ""
  let digits := (toString n.natAbs).data
  sign ++ String.mk ((commaRev digits.reverse 0).reverse)

/-- Python `sep.join(lines)`. -/
def pyJoin (sep : String) : List String → String
  | [] => ""
  | [a] => a
  | a :: rest => a ++ sep ++ pyJoin sep rest

/-- Python dict assignment `d[k] = v` on an association list. -/
def dictInsert {α : Type} (l : List (String × α)) (key : String) (v : α) :
    List (String × α) :=
  match l with
  | [] => [(key, v)]
  | (k, w) :: rest =>
    if k = key then (k, v) :: rest else (k, w) :: dictInsert rest key v

/-- Python `s.startswith(pre)`. -/
def pyStartsWith (s pre : String) : Bool :=
  pre.data.isPrefixOf s.data

/-- Split a character list at every occurrence of the separator (leftmost,
non-overlapping), fuel-bounded; the fuel is always at least the input
length plus one, so the fallback case is unreachable for a non-empty
separator. -/
def splitOnAux (sep : List Char) : Nat → List Char → List Char → List (List Char)
  | 0, s, acc => [acc.reverse ++ s]
  | fuel + 1, s, acc =>
    match s with
    | [] => [acc.reverse]
    | c :: rest =>
      if sep.isPrefixOf (c :: rest) then
        acc.reverse :: splitOnAux sep fuel (List.drop sep.length (c :: rest)) []
      else splitOnAux sep fuel rest (c :: acc)

/-- Python `s.split(sep)` for a non-empty separator. -/
def pySplitOn (sep s : String) : List String :=
  (splitOnAux sep.data (s.data.length + 1) s.data []).map String.mk

/-- The whitespace characters removed by Python `str.strip()`. -/
def isPyWS (c : Char) : Bool :=
  c == ' ' || c == '\t' || c == '\n' || c == '\r' || c == '\x0b' || c == '\x0c'

/-- Python `s.strip()`. -/
def pyStrip (s : String) : String :=
  String.mk (((s.data.dropWhile isPyWS).reverse.dropWhile isPyWS).reverse)

/-- Replace every leftmost, non-overlapping occurrence of the pattern,
fuel-bounded as in `splitOnAux`. -/
def replaceAux (pat rep : List Char) : Nat → List Char → List Char
  | 0, s => s
  | fuel + 1, s =>
    match s with
    | [] => []
    | c :: rest =>
      if pat.isPrefixOf (c :: rest) then
        rep ++ replaceAux pat rep fuel (List.drop pat.length (c :: rest))
      else c :: replaceAux pat rep fuel rest

/-- Python `s.replace(pat, rep)` for a non-empty pattern. -/
def pyReplace (s pat rep : String) : String :=
  if pat.data = [] then s
  else String.mk (replaceAux pat.data rep.data (s.data.length + 1) s.data)

/-- Python `pathlib.Path(p).parent` on a slash-separated path string. -/
def parentDir (p : String) : String :=
  let parts := pySplitOn "/" p
  match parts with
  | [] => "."
  | [_] => "."
  | _ => pyJoin "/" parts.dropLast

/-- Python `Path(a) / b`. -/
def pathJoin (a b : String) : String := a ++ "/" ++ b

/-- Python `pathlib.Path(p)` normalization: pathlib drops a leading `./`
segment, so `Path("./zonewise/skills")` renders as `zonewise/skills`. -/
def pathNorm (p : String) : String :=
  if pyStartsWith p "./" then String.mk (p.data.drop 2) else p

/-- Python `s.split(sep, 2)`: at most two splits, remainder kept intact. -/
def pySplit2 (sep s : String) : List String :=
  let parts := pySplitOn sep s
  if parts.length ≤ 3 then parts
  else parts.take 2 ++ [pyJoin sep (parts.drop 2)]

/-! ### Data model (`langgraph_workflow.py`) -/

/-- A printable Python dict value (string or number), enough for the
`comparable_sales` / `permit_history` / `open_violations` entries. -/
inductive PVal where
  | s (v : String)
  | n (v : ℚ)
deriving DecidableEq

/-- A Python dict with printable values. -/
abbrev Dict := List (String × PVal)

/-- Collected property data from all agents (`PropertyData` pydantic model). -/
structure PropertyData where
  parcel_id : String
  address : Option String := none
  zoning_district : Option String := none
  zoning_dims : Option (List (String × ℚ)) := none
  permitted_uses : List String := []
  arv : Option ℚ := none
  assessed_value : Option ℚ := none
  comparable_sales : List Dict := []
  max_bid : Option ℚ := none
  permit_history : List Dict := []
  open_violations : List Dict := []
  permit_risk_score : ℤ := 0
  max_buildable_sqft : Option ℚ := none
  max_height : Option ℚ := none
  envelope_generated : Bool := false
  avg_sun_hours : Option ℚ := none
  shadow_impact : Option String := none
deriving DecidableEq

/-- A LangChain message: role (human/ai), content, and optional agent name. -/
structure Msg where
  role : String
  content : String
  name : Option String := none
deriving DecidableEq

/-- State for the analysis workflow (`AnalysisState` TypedDict). -/
structure AnalysisState where
  messages : List Msg
  parcel_id : String
  property_data : PropertyData
  current_agent : String
  completed_agents : List String
  errors : List String
  final_report : Option String
  timestamp : String
deriving DecidableEq

/-! ### Synthesizer (`synthesizer_node`, lines 245-309) -/

def recBID : String := "✅ **BID** - Low risk property with good fundamentals"

def recREVIEW : String := "⚠️ **REVIEW** - Moderate risk, investigate further"

def recSKIP : String := "❌ **SKIP** - High risk or insufficient data"

def recINCOMPLETE : String := "⚠️ **INCOMPLETE** - Insufficient data for recommendation"

/-- The recommendation cascade of `synthesizer_node` (lines 282-291).  The
outer guard is Python truthiness of `arv` and `max_bid`; the first branch
additionally needs `not open_violations` (empty list). -/
def recommendation (pd : PropertyData) : String :=
  if pyTruthyQ pd.arv && pyTruthyQ pd.max_bid then
    if pd.permit_risk_score < 30 ∧ pd.open_violations = [] then recBID
    else if pd.permit_risk_score < 50 then recREVIEW
    else recSKIP
  else recINCOMPLETE

/-- The `report_lines` list built by `synthesizer_node` before the
recommendation is appended (lines 255-280). -/
def report_lines (st : AnalysisState) : List String :=
  let pd := st.property_data
  [ "# ZoneWise Property Analysis Report",
    "**Parcel ID:** " ++ pd.parcel_id,
    "**Generated:** " ++ st.timestamp,
    "",
    "## Zoning Summary",
    "- **District:** " ++ pyOrStr pd.zoning_district "Unknown",
    "- **Max Height:** " ++ pyOrNum pd.max_height "N/A" ++ " ft",
    (if pyTruthyQ pd.max_buildable_sqft then
       "- **Max Buildable:** " ++ fmtComma ((pd.max_buildable_sqft).getD 0) ++ " sqft"
     else "- **Max Buildable:** N/A"),
    "",
    "## Valuation Summary",
    (if pyTruthyQ pd.arv then
       "- **Estimated ARV:** $" ++ fmtComma ((pd.arv).getD 0)
     else "- **Estimated ARV:** N/A"),
    (if pyTruthyQ pd.max_bid then
       "- **Max Bid (70% rule):** $" ++ fmtComma ((pd.max_bid).getD 0)
     else "- **Max Bid:** N/A"),
    "- **Comparable Sales:** " ++ toString pd.comparable_sales.length ++ " found",
    "",
    "## Permit Analysis",
    "- **Permit Risk Score:** " ++ toString pd.permit_risk_score ++ "/100",
    "- **Open Violations:** " ++ toString pd.open_violations.length,
    "- **Historical Permits:** " ++ toString pd.permit_history.length,
    "",
    "## Sun/Shadow Analysis",
    "- **Average Sun Hours:** " ++ pyOrNum pd.avg_sun_hours "N/A" ++ " hrs/day",
    "- **3D Envelope:** " ++ (if pd.envelope_generated then "Generated" else "Not generated"),
    "",
    "## Recommendation" ]

/-- Synthesizer agent node: builds the final report, appends the
recommendation and (if any) the error appendix, records the final report
and a narration message (lines 245-309).  Total by construction, mirroring
that the Python function contains no failing operation. -/
def synthesizer_node (st : AnalysisState) : AnalysisState :=
  let rec_ := recommendation st.property_data
  let lines :=
    report_lines st ++ [rec_] ++
      (if st.errors = [] then []
       else "" :: "## Errors" :: st.errors.map (fun e => "- " ++ e))
  { st with
    final_report := some (pyJoin "\n" lines),
    messages := st.messages ++
      [⟨"ai", "[Synthesizer] Generated final report with recommendation: " ++ rec_,
        some "synthesizer"⟩] }

/-! ### Skill-based agent (`zonewise_agent.py`) -/

/-- Level 1 skill metadata (`SkillMetadata` pydantic model). -/
structure SkillMetadata where
  name : String
  description : String
  path : String
  category : String
  priority : ℤ
  tokens_estimate : ℤ
  references : List String := []
deriving DecidableEq

/-- Skills manifest structure (`SkillsManifest`). -/
structure SkillsManifest where
  version : String
  updated : String
  total_skills : ℤ
  skills : List SkillMetadata
deriving DecidableEq

/-- Front matter extracted from a document: a key/value map. -/
abbrev FrontMatter := List (String × String)

/-- Level 2 full skill content (`LoadedSkill`). -/
structure LoadedSkill where
  name : String
  content : String
  front_matter : FrontMatter := []
deriving DecidableEq

/-- Level 3 reference document (`SkillReference`). -/
structure SkillReference where
  name : String
  skill_name : String
  content : String
deriving DecidableEq

/-- Dependencies injected into the agent (`AgentDependencies` dataclass):
the per-context caches for manifest, skills and references. -/
structure AgentDependencies where
  skills_path : String := pathNorm "./zonewise/skills"
  manifest : Option SkillsManifest := none
  loaded_skills : List (String × LoadedSkill) := []
  loaded_references : List (String × SkillReference) := []
deriving DecidableEq

/-- The file system seen by the loader: the manifest resource (already
parsed; `none` models an absent `skills-manifest.yaml`) and the text files
addressed by path. -/
structure DocStore where
  manifest : Option SkillsManifest := none
  files : List (String × String) := []
deriving DecidableEq

/-- The YAML parser as an oracle: given the front-matter text it returns
the parsed map, `some none` for an empty document (Python `None`), or an
error (`yaml.YAMLError`). -/
abbrev YamlFn := String → Except Unit (Option FrontMatter)

/-- Load skills manifest from YAML file (`load_manifest`, lines 86-96):
raises `FileNotFoundError` when the resource is absent; a successful load
is one retrieval (the returned `Nat`). -/
def load_manifest (store : DocStore) (skills_path : String) :
    Except String (SkillsManifest × Nat) :=
  let manifest_path := pathJoin skills_path "skills-manifest.yaml"
  match store.manifest with
  | none => .error ("Skills manifest not found: " ++ manifest_path)
  | some m => .ok (m, 1)

/-- Generate Level 1 skill descriptions for the system prompt
(`get_skill_descriptions`, lines 98-113). -/
def get_skill_descriptions (manifest : SkillsManifest) : String :=
  let header := [ "# Available Skills", "",
    "You have access to the following skills. Use load_skill when needed:", "" ]
  let body := manifest.skills.foldl
    (fun acc skill => acc ++
      [ "## " ++ skill.name, pyStrip skill.description,
        "Category: " ++ skill.category ++ " | Priority: " ++ toString skill.priority,
        "" ])
    []
  pyJoin "\n" (header ++ body)

/-- Parse YAML front matter from markdown (`parse_front_matter`, lines
115-126).  The split is Python `content.split("---", 2)`; a parse error in
the enclosed block falls through to the no-front-matter return. -/
def parse_front_matter (yaml : YamlFn) (content : String) : FrontMatter × String :=
  if pyStartsWith content "---" then
    let parts := pySplit2 "---" content
    if 3 ≤ parts.length then
      match yaml (((parts.get? 1)).getD "") with
      | .ok metadata => (metadata.getD [], pyStrip (((parts.get? 2)).getD ""))
      | .error _ => ([], content)
    else ([], content)
  else ([], content)

/-- Load Level 2 full skill content (`load_skill_content`, lines 128-147):
manifest lookup, file read (counted), front-matter split. -/
def load_skill_content (yaml : YamlFn) (store : DocStore) (skills_path : String)
    (skill_name : String) (manifest : SkillsManifest) :
    Except String (LoadedSkill × Nat) :=
  match manifest.skills.find? (fun s => s.name == skill_name) with
  | none => .error ("Skill not found: " ++ skill_name)
  | some skill_meta =>
    let skill_path := pathJoin (parentDir skills_path) skill_meta.path
    match store.files.lookup skill_path with
    | none => .error ("Skill file not found: " ++ skill_path)
    | some content =>
      let fm_body := parse_front_matter yaml content
      .ok ({ name := skill_name, content := fm_body.2, front_matter := fm_body.1 }, 1)

/-- Load Level 3 reference document (`load_reference_content`, lines
149-174). -/
def load_reference_content (store : DocStore) (skills_path : String)
    (skill_name : String) (reference_name : String) (manifest : SkillsManifest) :
    Except String (SkillReference × Nat) :=
  match manifest.skills.find? (fun s => s.name == skill_name) with
  | none => .error ("Skill not found: " ++ skill_name)
  | some skill_meta =>
    let skill_dir := pathJoin (parentDir skills_path) (pyReplace skill_meta.path "/SKILL.md" "")
    let ref_path := pathJoin (pathJoin skill_dir "references") reference_name
    match store.files.lookup ref_path with
    | none => .error ("Reference not found: " ++ ref_path)
    | some content =>
      .ok ({ name := reference_name, skill_name := skill_name, content := content }, 1)

/-- The agent system prompt template (`SYSTEM_PROMPT`), formatted with the
Level 1 skill descriptions. -/
def SYSTEM_PROMPT : String :=
  "\nYou are ZoneWise.AI, an expert assistant for zoning analysis and 3D building \nenvelope visualization in Brevard County, Florida.\n\n## Your Capabilities\n\nYou can help users with:\n- Analyzing zoning codes and regulations\n- Calculating development intensity metrics (DIMS)\n- Generating 3D building envelopes\n- Sun/shadow analysis for properties\n- Property data from BCPAO\n\n## Progressive Disclosure\n\nYou have access to specialized skills. When you need detailed instructions:\n1. Use `load_skill` to load the full skill content\n2. If the skill references a document, use `read_reference` to load it\n3. Only load what you actually need\n\n{skill_descriptions}\n\n## Important Guidelines\n\n- Always verify zoning codes against municipal sources\n- Use Malabar Land Development Code for Malabar properties\n- Calculations should use proper setbacks, FAR, and height limits\n- For sun analysis, default location is Malabar, FL (28.004, -80.5687)\n"

/-- Create a ZoneWise.AI agent (`create_agent`, lines 286-326): loads the
manifest for the system prompt (one retrieval) and returns the formatted
prompt.  A missing manifest propagates as an error. -/
def create_agent (store : DocStore) : Except String (String × Nat) :=
  match load_manifest store (pathNorm "./zonewise/skills") with
  | .error e => .error e
  | .ok (manifest, k) =>
    .ok (pyReplace SYSTEM_PROMPT "{skill_descriptions}" (get_skill_descriptions manifest), k)

/-- Load the manifest into the dependency context if not already there
(the `if deps.manifest is None` steps of both tools). -/
def ensure_manifest (store : DocStore) (deps : AgentDependencies) :
    Except String (SkillsManifest × AgentDependencies × Nat) :=
  match deps.manifest with
  | some m => .ok (m, deps, 0)
  | none =>
    match load_manifest store deps.skills_path with
    | .error e => .error e
    | .ok (m, k) => .ok (m, { deps with manifest := some m }, k)

/-- The cache-hit banner of `load_skill_tool`. -/
def hitSkillMsg (skill_name : String) (sk : LoadedSkill) : String :=
  "[Skill \x27" ++ skill_name ++ "\x27 already loaded]\n\n" ++ sk.content

/-- The cache-hit banner of `read_reference_tool`. -/
def hitRefMsg (ref : SkillReference) : String :=
  "[Reference already loaded]\n\n" ++ ref.content

/-- Load the full instructions for a skill (`load_skill_tool`, lines
214-243).  Cached entries are returned with no retrieval; a manifest-load
failure propagates (it happens outside the inner `try`); skill lookup or
file errors are converted to an error string.  The `Nat` result counts
store retrievals performed by the call. -/
def load_skill_tool (yaml : YamlFn) (store : DocStore) (deps : AgentDependencies)
    (skill_name : String) : Except String (String × AgentDependencies × Nat) :=
  match deps.loaded_skills.lookup skill_name with
  | some sk => .ok (hitSkillMsg skill_name sk, deps, 0)
  | none =>
    match ensure_manifest store deps with
    | .error e => .error e
    | .ok (manifest, deps1, k1) =>
      match load_skill_content yaml store deps1.skills_path skill_name manifest with
      | .error e => .ok ("Error loading skill: " ++ e, deps1, k1)
      | .ok (skill, k2) =>
        .ok ("# " ++ skill_name ++ " Skill\n\n" ++ skill.content,
          { deps1 with loaded_skills := dictInsert deps1.loaded_skills skill_name skill },
          k1 + k2)

/-- Load a reference document (`read_reference_tool`, lines 245-280),
memoized under the key `skill_name ++ ":" ++ reference_name`. -/
def read_reference_tool (store : DocStore) (deps : AgentDependencies)
    (skill_name reference_name : String) :
    Except String (String × AgentDependencies × Nat) :=
  match deps.loaded_references.lookup (skill_name ++ ":" ++ reference_name) with
  | some ref => .ok (hitRefMsg ref, deps, 0)
  | none =>
    match ensure_manifest store deps with
    | .error e => .error e
    | .ok (manifest, deps1, k1) =>
      match load_reference_content store deps1.skills_path skill_name reference_name manifest with
      | .error e => .ok ("Error loading reference: " ++ e, deps1, k1)
      | .ok (ref, k2) =>
        .ok ("# Reference: " ++ reference_name ++ "\n\n" ++ ref.content,
          { deps1 with loaded_references :=
              dictInsert deps1.loaded_references (skill_name ++ ":" ++ reference_name) ref },
          k1 + k2)

/-! ### Agent nodes (`langgraph_workflow.py`) -/

/-- The body of each stage node's `try` block up to the point where field
updates begin: construct the agent (which loads the catalog — the counted
retrieval) and invoke the external reasoning capability, whose outcome is
the `res` oracle.  The result is the outcome of the `try` together with
the number of store retrievals performed. -/
def stage_try (store : DocStore) (res : Except String String) :
    Except String Unit × Nat :=
  match create_agent store with
  | .error e => (.error e, 0)
  | .ok (_prompt, k) =>
    match res with
    | .error e => (.error e, k)
    | .ok _ => (.ok (), k)

/-- Zoning analysis agent node (`zoning_agent_node`, lines 84-125). -/
def zoning_agent_node (store : DocStore) (res : Except String String)
    (st : AnalysisState) : AnalysisState × Nat :=
  match stage_try store res with
  | (.error e, k) =>
    ({ st with errors := st.errors ++ ["Zoning agent error: " ++ e] }, k)
  | (.ok _, k) =>
    let pd := { st.property_data with
      zoning_district := some "RS-10",
      zoning_dims := some [("max_height_ft", (35 : ℚ)), ("far", 7/20),
        ("front_setback_ft", 25), ("side_setback_ft", 15/2), ("rear_setback_ft", 20)] }
    ({ st with
      property_data := pd,
      messages := st.messages ++
        [⟨"ai", "[Zoning Agent] Analyzed zoning for " ++ st.parcel_id ++ ": " ++
            (pd.zoning_district.getD "None"), some "zoning_agent"⟩],
      completed_agents := st.completed_agents ++ ["zoning"] }, k)

/-- Property valuation agent node (`valuation_agent_node`, lines 127-164). -/
def valuation_agent_node (store : DocStore) (res : Except String String)
    (st : AnalysisState) : AnalysisState × Nat :=
  match stage_try store res with
  | (.error e, k) =>
    ({ st with errors := st.errors ++ ["Valuation agent error: " ++ e] }, k)
  | (.ok _, k) =>
    let pd := { st.property_data with
      arv := some 325000,
      max_bid := some 165000,
      comparable_sales := [
        [("address", PVal.s "123 Main St"), ("price", PVal.n 310000), ("sqft", PVal.n 1450)],
        [("address", PVal.s "456 Oak Ave"), ("price", PVal.n 340000), ("sqft", PVal.n 1550)] ] }
    ({ st with
      property_data := pd,
      messages := st.messages ++
        [⟨"ai", "[Valuation Agent] ARV: $" ++ fmtComma (pd.arv.getD 0) ++
            ", Max Bid: $" ++ fmtComma (pd.max_bid.getD 0), some "valuation_agent"⟩],
      completed_agents := st.completed_agents ++ ["valuation"] }, k)

/-- Permit lookup agent node (`permit_agent_node`, lines 166-203). -/
def permit_agent_node (store : DocStore) (res : Except String String)
    (st : AnalysisState) : AnalysisState × Nat :=
  match stage_try store res with
  | (.error e, k) =>
    ({ st with errors := st.errors ++ ["Permit agent error: " ++ e] }, k)
  | (.ok _, k) =>
    let pd := { st.property_data with
      permit_history := [
        [("type", PVal.s "Roofing"), ("date", PVal.s "2020-05-15"), ("status", PVal.s "Closed")],
        [("type", PVal.s "Electrical"), ("date", PVal.s "2018-03-20"), ("status", PVal.s "Closed")] ],
      open_violations := [],
      permit_risk_score := 15 }
    ({ st with
      property_data := pd,
      messages := st.messages ++
        [⟨"ai", "[Permit Agent] Risk score: " ++ toString pd.permit_risk_score ++
            "/100, No open violations", some "permit_agent"⟩],
      completed_agents := st.completed_agents ++ ["permit"] }, k)

/-- Visualization agent node (`envelope_agent_node`, lines 205-243). -/
def envelope_agent_node (store : DocStore) (res : Except String String)
    (st : AnalysisState) : AnalysisState × Nat :=
  match stage_try store res with
  | (.error e, k) =>
    ({ st with errors := st.errors ++ ["Envelope agent error: " ++ e] }, k)
  | (.ok _, k) =>
    let dims := (st.property_data.zoning_dims).getD []
    let pd := { st.property_data with
      max_buildable_sqft := some 2500,
      max_height := some ((dims.lookup "max_height_ft").getD 35),
      envelope_generated := true,
      avg_sun_hours := some (17/2) }
    ({ st with
      property_data := pd,
      messages := st.messages ++
        [⟨"ai", "[Envelope Agent] Max buildable: " ++ fmtComma (pd.max_buildable_sqft.getD 0) ++
            " sqft, Generated 3D envelope", some "envelope_agent"⟩],
      completed_agents := st.completed_agents ++ ["envelope"] }, k)

/-! ### Router and sequential orchestration -/

/-- The fixed agent execution order of `route_to_next_agent`. -/
def agent_order : List String := ["zoning", "valuation", "permit", "envelope"]

/-- The `for agent in agent_order: if agent not in completed: return agent`
loop of the router. -/
def firstNotCompleted : List String → List String → Option String
  | [], _ => none
  | a :: rest, completed =>
    if completed.contains a then firstNotCompleted rest completed else some a

/-- Route to the next agent based on completed agents
(`route_to_next_agent`, lines 315-330). -/
def route_to_next_agent (completed : List String) : String :=
  match firstNotCompleted agent_order completed with
  | some agent => agent
  | none => if !completed.contains "synthesizer" then "synthesizer" else "end"

/-- Dispatch a routed stage name to its node (the conditional edges of
`create_analysis_workflow`, lines 336-385). -/
def stepStage (store : DocStore) (runRes : String → Except String String)
    (name : String) (st : AnalysisState) : AnalysisState × Nat :=
  if name = "zoning" then zoning_agent_node store (runRes "zoning") st
  else if name = "valuation" then valuation_agent_node store (runRes "valuation") st
  else if name = "permit" then permit_agent_node store (runRes "permit") st
  else if name = "envelope" then envelope_agent_node store (runRes "envelope") st
  else (st, 0)

/-- Outcome of driving the compiled graph: either the run reached the END
node, or the LangGraph recursion limit was exceeded (GraphRecursionError).
Both carry the last state and the total number of store retrievals. -/
inductive RunOutcome where
  | finished : AnalysisState → Nat → RunOutcome
  | recursionError : AnalysisState → Nat → RunOutcome
deriving DecidableEq

def RunOutcome.state : RunOutcome → AnalysisState
  | .finished st _ => st
  | .recursionError st _ => st

def RunOutcome.loads : RunOutcome → Nat
  | .finished _ k => k
  | .recursionError _ k => k

def RunOutcome.isFinished : RunOutcome → Bool
  | .finished _ _ => true
  | .recursionError _ _ => false

/-- Drive the sequential workflow: repeatedly consult the router; a stage
name runs that node and loops, `"synthesizer"` runs the synthesizer and
reaches END (the graph wires `synthesizer -> END` unconditionally),
`"end"` reaches END directly.  `limit` is the recursion limit on graph
super-steps. -/
def run_workflow_loop (store : DocStore) (runRes : String → Except String String) :
    Nat → AnalysisState → Nat → RunOutcome
  | 0, st, loads => .recursionError st loads
  | n + 1, st, loads =>
    let nxt := route_to_next_agent st.completed_agents
    if nxt = "synthesizer" then .finished (synthesizer_node st) loads
    else if nxt = "end" then .finished st loads
    else
      let stepped := stepStage store runRes nxt st
      run_workflow_loop store runRes n stepped.1 (loads + stepped.2)

/-- The initial state built by `run_property_analysis` (lines 407-417). -/
def initial_analysis_state (parcel_id timestamp : String) : AnalysisState :=
  { messages := [⟨"human", "Analyze property: " ++ parcel_id, none⟩],
    parcel_id := parcel_id,
    property_data := { parcel_id := parcel_id },
    current_agent := "",
    completed_agents := [],
    errors := [],
    final_report := none,
    timestamp := timestamp }

/-! ### Phased-parallel mode (`run_parallel_analysis`, lines 431-506) -/

/-- Result dict of `run_zoning_analysis` (fields read with `.get`). -/
structure ZoningOut where
  district : Option String := none
  dims : Option (List (String × ℚ)) := none
deriving DecidableEq

/-- Result dict of `run_permit_analysis` (read with `.get(key, [])`). -/
structure PermitOut where
  history : List Dict := []
  violations : List Dict := []
deriving DecidableEq

/-- Result dict of `run_valuation_analysis`. -/
structure ValOut where
  arv : Option ℚ := none
  max_bid : Option ℚ := none
deriving DecidableEq

/-- Result dict of `run_envelope_analysis`. -/
structure EnvOut where
  sun_hours : Option ℚ := none
deriving DecidableEq

/-- Placeholder zoning analysis (lines 495-497). -/
def run_zoning_analysis (_parcel_id : String) : ZoningOut :=
  { district := some "RS-10", dims := some [("max_height_ft", 35)] }

/-- Placeholder permit analysis (lines 499-500). -/
def run_permit_analysis (_parcel_id : String) : PermitOut :=
  { history := [], violations := [] }

/-- Placeholder valuation analysis (lines 502-503). -/
def run_valuation_analysis (_parcel_id : String) (_dims : Option (List (String × ℚ))) : ValOut :=
  { arv := some 325000, max_bid := some 165000 }

/-- Placeholder envelope analysis (lines 505-506). -/
def run_envelope_analysis (_parcel_id : String) (_dims : Option (List (String × ℚ))) : EnvOut :=
  { sun_hours := some (17/2) }

/-- Run agents in parallel for faster analysis (`run_parallel_analysis`,
lines 431-492).  The four task outcomes (delivered by `asyncio.gather`
with `return_exceptions=True`) are parameters; exceptions are the `error`
cases.  Note the error prefixes (`"Zoning error:"` and so on) and the
unconditional `completed_agents` list, both taken verbatim from the
source. -/
def run_parallel_analysis
    (zoning_result : Except String ZoningOut) (permit_result : Except String PermitOut)
    (valuation_result : Except String ValOut) (envelope_result : Except String EnvOut)
    (parcel_id timestamp : String) : AnalysisState :=
  let pd0 : PropertyData := { parcel_id := parcel_id }
  let pd1 := match zoning_result with
    | .error _ => pd0
    | .ok z => { pd0 with zoning_district := z.district, zoning_dims := z.dims }
  let pd2 := match permit_result with
    | .error _ => pd1
    | .ok p => { pd1 with permit_history := p.history, open_violations := p.violations }
  let pd3 := match valuation_result with
    | .error _ => pd2
    | .ok v => { pd2 with arv := v.arv, max_bid := v.max_bid }
  let pd4 := match envelope_result with
    | .error _ => pd3
    | .ok en => { pd3 with envelope_generated := true, avg_sun_hours := en.sun_hours }
  let errs :=
    (match zoning_result with | .error e => ["Zoning error: " ++ e] | .ok _ => []) ++
    (match permit_result with | .error e => ["Permit error: " ++ e] | .ok _ => []) ++
    (match valuation_result with | .error e => ["Valuation error: " ++ e] | .ok _ => []) ++
    (match envelope_result with | .error e => ["Envelope error: " ++ e] | .ok _ => [])
  synthesizer_node
    { messages := [],
      parcel_id := parcel_id,
      property_data := pd4,
      current_agent := "complete",
      completed_agents := ["zoning", "permit", "valuation", "envelope"],
      errors := errs,
      final_report := none,
      timestamp := timestamp }

/-! ### Spec-side definitions (for refinement-style claims) -/

/-- Modelled from the spec words for the Router (section 4.3 and claim C2):
the first identifier of the fixed order not present in `completed`; when
all four are present, the synthesis transition unless synthesis has run,
else the terminal transition. -/
def router_spec (completed : List String) : String :=
  match agent_order.find? (fun a => !completed.contains a) with
  | some a => a
  | none => if completed.contains "synthesizer" then "end" else "synthesizer"

/-- Modelled from the amended wording of claim C1: `arv` and `max_bid`
must each be present AND nonzero (Python truthiness) to leave the
INCOMPLETE branch; given that, BID when the risk score is below 30 with no
open violations, REVIEW below 50, otherwise SKIP. -/
def recommendation_spec_amended (pd : PropertyData) : String :=
  if (pd.arv.isSome ∧ pd.arv ≠ some 0) ∧ (pd.max_bid.isSome ∧ pd.max_bid ≠ some 0) then
    if pd.permit_risk_score < 30 ∧ pd.open_violations = [] then recBID
    else if pd.permit_risk_score < 50 then recREVIEW
    else recSKIP
  else recINCOMPLETE

/-! ### Concrete fixtures -/

/-- A one-skill manifest fixture. -/
def manifest0 : SkillsManifest :=
  { version := "1.0", updated := "2025-01-01", total_skills := 1,
    skills := [ { name := "zoning-analysis",
                  description := "Zoning analysis skill",
                  path := "skills/zoning-analysis/SKILL.md",
                  category := "zoning", priority := 1, tokens_estimate := 500,
                  references := ["api_reference.md"] } ] }

/-- A document store where the manifest and all documents are present. -/
def storeOK : DocStore :=
  { manifest := some manifest0,
    files := [("zonewise/skills/zoning-analysis/SKILL.md", "Body text"),
              ("zonewise/skills/zoning-analysis/references/api_reference.md", "Ref text")] }

/-- A document store whose manifest resource is absent. -/
def store_no_manifest : DocStore := { manifest := none, files := [] }

/-- Capability oracle: every stage invocation succeeds. -/
def allOK : String → Except String String := fun _ => .ok "ok"

/-- Capability oracle: the zoning stage fails on every invocation, the
others succeed. -/
def failZoning : String → Except String String :=
  fun s => if s = "zoning" then .error "CapabilityError: simulated failure" else .ok "ok"

/-- A YAML oracle that parses every block successfully. -/
def yaml0 : YamlFn := fun _ => .ok (some [("name", "z")])

/-- A YAML oracle that rejects every block (`yaml.YAMLError`). -/
def yaml_reject : YamlFn := fun _ => .error ()

/-- A record whose `arv` is present but zero. -/
def pd_zero_arv : PropertyData :=
  { parcel_id := "2512345", arv := some 0, max_bid := some 165000, permit_risk_score := 15 }

/-- The loaded skill produced by the first `load_skill_tool` call on
`storeOK`. -/
def sk1 : LoadedSkill := { name := "zoning-analysis", content := "Body text" }

/-- The dependency context after one successful `load_skill_tool` call. -/
def deps_after_skill : AgentDependencies :=
  { manifest := some manifest0, loaded_skills := [("zoning-analysis", sk1)] }

/-- The reference produced by the first `read_reference_tool` call on
`storeOK`. -/
def ref1 : SkillReference :=
  { name := "api_reference.md", skill_name := "zoning-analysis", content := "Ref text" }

/-- The dependency context after one successful `read_reference_tool`
call. -/
def deps_after_ref : AgentDependencies :=
  { manifest := some manifest0,
    loaded_references := [("zoning-analysis:api_reference.md", ref1)] }

/-! ### Helper lemmas -/

/-- The router's for-loop agrees with `List.find?` over the order list. -/
theorem firstNotCompleted_eq_find (l completed : List String) :
    firstNotCompleted l completed = l.find? (fun a => !completed.contains a) := by
  induction l with
  | nil => rfl
  | cons a t ih =>
    rw [firstNotCompleted, List.find?_cons]
    cases h : completed.contains a <;> simp only [h, Bool.not_true, Bool.not_false] <;>
      first
      | exact ih
      | rfl

/-- A join over a nonempty list of lines starts with the first line. -/
theorem pyJoin_cons (sep a : String) (l : List String) :
    ∃ t, pyJoin sep (a :: l) = a ++ t := by
  cases l with
  | nil => exact ⟨"", (String.append_empty a).symm⟩
  | cons b bs =>
    exact ⟨sep ++ pyJoin sep (b :: bs), String.append_assoc a sep (pyJoin sep (b :: bs))⟩

/-- The error list of a phased-parallel run: one slot per failed task, in
the fixed order zoning, permit, valuation, envelope. -/
theorem parallel_errors_eq (zr : Except String ZoningOut) (pr : Except String PermitOut)
    (vr : Except String ValOut) (er : Except String EnvOut) (pid ts : String) :
    (run_parallel_analysis zr pr vr er pid ts).errors =
      (match zr with | .error e => ["Zoning error: " ++ e] | .ok _ => []) ++
      (match pr with | .error e => ["Permit error: " ++ e] | .ok _ => []) ++
      (match vr with | .error e => ["Valuation error: " ++ e] | .ok _ => []) ++
      (match er with | .error e => ["Envelope error: " ++ e] | .ok _ => []) := rfl

/-! ### Claim theorems -/

/-- C1 (counterexample): a record whose `arv` is present (`some 0`) with
`max_bid` present, risk score below 30 and no open violations should get
BID under the claim as stated, but the code's Python-truthiness guard
(`if property_data.arv and property_data.max_bid`) treats the zero `arv`
as absent and yields INCOMPLETE. -/
theorem recommendation_presence_counterexample :
    pd_zero_arv.arv.isSome = true ∧ pd_zero_arv.max_bid.isSome = true ∧
    pd_zero_arv.permit_risk_score < 30 ∧ pd_zero_arv.open_violations = [] ∧
    recommendation pd_zero_arv ≠ recBID ∧
    recommendation pd_zero_arv = recINCOMPLETE := by
  refine ⟨rfl, rfl, by decide, rfl, by decide, rfl⟩

/-- C1 (amended): for every record, the synthesizer recommendation follows
the amended decision rule in which `arv` and `max_bid` must be present and
nonzero (Python truthiness); given that, BID when `permit_risk_score < 30`
with no open violations, REVIEW when `permit_risk_score < 50`, otherwise
SKIP; else INCOMPLETE. -/
theorem recommendation_follows_amended_rule (pd : PropertyData) :
    recommendation pd = recommendation_spec_amended pd := by
  unfold recommendation recommendation_spec_amended
  refine if_congr ?_ rfl rfl
  cases pd.arv <;> cases pd.max_bid <;> simp [pyTruthyQ]

/-- C2: for every completed set, the router returns the first identifier
of the fixed order `[zoning, valuation, permit, envelope]` not present in
it; when all four are present it returns `"synthesizer"` if synthesis has
not run, else `"end"`. -/
theorem router_matches_spec (completed : List String) :
    route_to_next_agent completed = router_spec completed := by
  unfold route_to_next_agent router_spec
  rw [firstNotCompleted_eq_find]
  cases h : agent_order.find? (fun a => !completed.contains a) with
  | some a => rfl
  | none => cases hc : completed.contains "synthesizer" <;> simp [hc]

/-- C7: front-matter parsing degrades instead of failing: a document not
starting with the marker yields an empty map and the full text as body; a
document whose front-matter block the YAML parser rejects also yields an
empty map and the raw document as body.  (The function is total, so no
exception is possible.) -/
theorem front_matter_degrades :
    (∀ (yaml : YamlFn) (content : String), pyStartsWith content "---" = false →
       parse_front_matter yaml content = ([], content)) ∧
    (∀ (yaml : YamlFn) (content : String), pyStartsWith content "---" = true →
       yaml (((pySplit2 "---" content).get? 1).getD "") = .error () →
       parse_front_matter yaml content = ([], content)) := by
  constructor
  · intro yaml content h
    unfold parse_front_matter
    rw [h]
    rfl
  · intro yaml content h hy
    unfold parse_front_matter
    rw [h]
    simp only [if_true, ite_true]
    by_cases hl : 3 ≤ (pySplit2 "---" content).length
    · rw [if_pos hl, hy]
    · rw [if_neg hl]

/-- C7 (witness): both degradation paths at concrete documents. -/
theorem front_matter_degrades_witness :
    parse_front_matter yaml_reject "no marker" = ([], "no marker") ∧
    parse_front_matter yaml_reject "---\nbad: [\n---\nbody" =
      ([], "---\nbad: [\n---\nbody") :=
  ⟨front_matter_degrades.1 yaml_reject "no marker" (by decide),
   front_matter_degrades.2 yaml_reject "---\nbad: [\n---\nbody" (by decide) rfl⟩

/-- C8: the Synthesizer is total (the embedding is a plain function, as
the Python body contains no failing operation): for every state it records
a report, the report is non-empty, and the recommendation — a function of
the record's field values alone — is one of the four labels. -/
theorem synthesizer_total (st : AnalysisState) :
    (synthesizer_node st).final_report.isSome = true ∧
    (synthesizer_node st).final_report.getD "" ≠ "" ∧
    (recommendation st.property_data = recBID ∨
     recommendation st.property_data = recREVIEW ∨
     recommendation st.property_data = recSKIP ∨
     recommendation st.property_data = recINCOMPLETE) := by
  refine ⟨rfl, ?_, ?_⟩
  · obtain ⟨t, ht⟩ := pyJoin_cons "\n" "# ZoneWise Property Analysis Report"
      ((report_lines st).tail ++ [recommendation st.property_data] ++
        (if st.errors = [] then []
         else "" :: "## Errors" :: st.errors.map (fun e => "- " ++ e)))
    show pyJoin "\n" ("# ZoneWise Property Analysis Report" ::
      ((report_lines st).tail ++ [recommendation st.property_data] ++
        (if st.errors = [] then []
         else "" :: "## Errors" :: st.errors.map (fun e => "- " ++ e)))) ≠ ""
    rw [ht]
    intro he
    have hlen := congrArg String.length he
    rw [String.length_append] at hlen
    have h35 : ("# ZoneWise Property Analysis Report" : String).length = 35 := by decide
    have h0 : ("" : String).length = 0 := rfl
    omega
  · unfold recommendation
    split_ifs <;> simp

/-- C3 (counterexample): in the phased-parallel mode a zoning failure is
recorded as "Zoning error: <detail>" — not with the claimed
"<stage> agent error:" prefix — and the stage is nevertheless listed in
the completed set, which is hard-coded to all four stages. -/
theorem parallel_failure_note_counterexample :
    (run_parallel_analysis (.error "boom") (.ok {})
        (.ok (run_valuation_analysis "2512345" none))
        (.ok (run_envelope_analysis "2512345" none)) "2512345" "t").errors =
      ["Zoning error: boom"] ∧
    (run_parallel_analysis (.error "boom") (.ok {})
        (.ok (run_valuation_analysis "2512345" none))
        (.ok (run_envelope_analysis "2512345" none)) "2512345" "t").completed_agents.contains
      "zoning" = true ∧
    pyStartsWith "Zoning error: boom" "Zoning agent error:" = false ∧
    pyStartsWith "Zoning error: boom" "zoning agent error:" = false := by
  refine ⟨rfl, rfl, by decide, by decide⟩

/-- C3 (amended): per-invocation failure isolation holds in the sequential
mode — on any failure of the guarded block (agent construction or
capability invocation) a stage appends exactly one "<Stage> agent error:"
note, leaves everything else (in particular the completed set) unchanged,
and returns normally; in the phased-parallel mode a failure of any of the
four stages appends a "<Stage> error:" note instead (zoning, permit,
valuation and envelope each covered below) and the completed set is
unconditionally all four stages. -/
theorem stage_failure_isolated :
    (∀ store res st e k, stage_try store res = (.error e, k) →
       zoning_agent_node store res st =
         ({ st with errors := st.errors ++ ["Zoning agent error: " ++ e] }, k) ∧
       valuation_agent_node store res st =
         ({ st with errors := st.errors ++ ["Valuation agent error: " ++ e] }, k) ∧
       permit_agent_node store res st =
         ({ st with errors := st.errors ++ ["Permit agent error: " ++ e] }, k) ∧
       envelope_agent_node store res st =
         ({ st with errors := st.errors ++ ["Envelope agent error: " ++ e] }, k)) ∧
    (∀ zr pr vr er pid ts,
       (run_parallel_analysis zr pr vr er pid ts).completed_agents =
         ["zoning", "permit", "valuation", "envelope"]) ∧
    (∀ pr vr er pid ts e,
       (run_parallel_analysis (.error e) pr vr er pid ts).errors.head? =
         some ("Zoning error: " ++ e)) ∧
    (∀ zr vr er pid ts e,
       ("Permit error: " ++ e) ∈ (run_parallel_analysis zr (.error e) vr er pid ts).errors) ∧
    (∀ zr pr er pid ts e,
       ("Valuation error: " ++ e) ∈ (run_parallel_analysis zr pr (.error e) er pid ts).errors) ∧
    (∀ zr pr vr pid ts e,
       ("Envelope error: " ++ e) ∈ (run_parallel_analysis zr pr vr (.error e) pid ts).errors) := by
  refine ⟨?_, ?_, ?_, ?_, ?_, ?_⟩
  · intro store res st e k h
    refine ⟨?_, ?_, ?_, ?_⟩
    · unfold zoning_agent_node; rw [h]
    · unfold valuation_agent_node; rw [h]
    · unfold permit_agent_node; rw [h]
    · unfold envelope_agent_node; rw [h]
  · intro zr pr vr er pid ts
    rfl
  · intro pr vr er pid ts e
    rfl
  · intro zr vr er pid ts e
    rw [parallel_errors_eq]
    cases zr <;> cases vr <;> cases er <;> simp
  · intro zr pr er pid ts e
    rw [parallel_errors_eq]
    cases zr <;> cases pr <;> cases er <;> simp
  · intro zr pr vr pid ts e
    rw [parallel_errors_eq]
    cases zr <;> cases pr <;> cases vr <;> simp

/-- C3 (witness): the sequential zoning stage at a concrete capability
failure appends exactly its prefixed note and completes nothing. -/
theorem stage_failure_isolated_witness :
    zoning_agent_node storeOK (.error "CapabilityError: boom")
        (initial_analysis_state "2512345" "t") =
      ({ initial_analysis_state "2512345" "t" with
          errors := ["Zoning agent error: CapabilityError: boom"] }, 1) :=
  (stage_failure_isolated.1 storeOK (.error "CapabilityError: boom")
    (initial_analysis_state "2512345" "t") "CapabilityError: boom" 1 rfl).1

/-- C4: evaluating the sequential orchestration at the failing input — the
zoning capability raising `CapabilityError` on every invocation — shows the
run does NOT complete: the router keeps re-selecting zoning, one further
zoning-prefixed error is appended per attempt (25 at recursion limit 25,
50 at limit 50, never exactly one), the completed set stays empty, and the
run ends in a recursion-limit error instead of a final report. -/
theorem zoning_failure_never_completes :
    (run_workflow_loop storeOK failZoning 25
        (initial_analysis_state "2512345" "t") 0).isFinished = false ∧
    (run_workflow_loop storeOK failZoning 25
        (initial_analysis_state "2512345" "t") 0).state.errors.length = 25 ∧
    (run_workflow_loop storeOK failZoning 25
        (initial_analysis_state "2512345" "t") 0).state.errors.head? =
      some "Zoning agent error: CapabilityError: simulated failure" ∧
    (run_workflow_loop storeOK failZoning 25
        (initial_analysis_state "2512345" "t") 0).state.completed_agents = [] ∧
    route_to_next_agent
      (run_workflow_loop storeOK failZoning 25
        (initial_analysis_state "2512345" "t") 0).state.completed_agents = "zoning" ∧
    (run_workflow_loop storeOK failZoning 50
        (initial_analysis_state "2512345" "t") 0).state.errors.length = 50 := by
  refine ⟨rfl, rfl, rfl, rfl, rfl, rfl⟩

/-- C5 (counterexample): in one fully successful sequential run the
catalog (skills manifest) is retrieved from the store four times — once
per stage, because every stage node constructs its own agent and fresh
`AgentDependencies` — contradicting "retrieved at most once per run". -/
theorem catalog_retrieved_per_stage :
    (run_workflow_loop storeOK allOK 10
        (initial_analysis_state "2512345" "t") 0).isFinished = true ∧
    (run_workflow_loop storeOK allOK 10
        (initial_analysis_state "2512345" "t") 0).loads = 4 ∧
    ¬ ((run_workflow_loop storeOK allOK 10
        (initial_analysis_state "2512345" "t") 0).loads ≤ 1) := by
  refine ⟨rfl, rfl, by decide⟩

/-- C5 (amended): caches are stage-scoped, not run-scoped: whenever the
manifest resource is present, each stage invocation performs exactly one
catalog retrieval of its own (succeed or fail), so a full sequential run
retrieves the catalog once per stage rather than once per run; a fresh run
gets fresh per-stage contexts. -/
theorem catalog_load_is_stage_scoped :
    ∀ store m res st, store.manifest = some m →
      (zoning_agent_node store res st).2 = 1 ∧
      (valuation_agent_node store res st).2 = 1 ∧
      (permit_agent_node store res st).2 = 1 ∧
      (envelope_agent_node store res st).2 = 1 := by
  intro store m res st h
  have hca : create_agent store =
      .ok (pyReplace SYSTEM_PROMPT "{skill_descriptions}" (get_skill_descriptions m), 1) := by
    unfold create_agent load_manifest
    rw [h]
  cases res with
  | error e =>
    have hst : stage_try store (.error e) = (.error e, 1) := by
      unfold stage_try
      rw [hca]
    refine ⟨?_, ?_, ?_, ?_⟩ <;>
      first
      | (unfold zoning_agent_node; rw [hst])
      | (unfold valuation_agent_node; rw [hst])
      | (unfold permit_agent_node; rw [hst])
      | (unfold envelope_agent_node; rw [hst])
  | ok r =>
    have hst : stage_try store (.ok r) = (.ok (), 1) := by
      unfold stage_try
      rw [hca]
    refine ⟨?_, ?_, ?_, ?_⟩ <;>
      first
      | (unfold zoning_agent_node; rw [hst])
      | (unfold valuation_agent_node; rw [hst])
      | (unfold permit_agent_node; rw [hst])
      | (unfold envelope_agent_node; rw [hst])

/-- C5 (witness): the per-stage catalog retrieval count at a concrete
store and state. -/
theorem catalog_load_is_stage_scoped_witness :
    (zoning_agent_node storeOK (.ok "ok") (initial_analysis_state "2512345" "t")).2 = 1 ∧
    (valuation_agent_node storeOK (.ok "ok") (initial_analysis_state "2512345" "t")).2 = 1 ∧
    (permit_agent_node storeOK (.ok "ok") (initial_analysis_state "2512345" "t")).2 = 1 ∧
    (envelope_agent_node storeOK (.ok "ok") (initial_analysis_state "2512345" "t")).2 = 1 :=
  catalog_load_is_stage_scoped storeOK manifest0 (.ok "ok")
    (initial_analysis_state "2512345" "t") rfl

/-- C9 (counterexample): with the manifest resource absent, the zoning
stage does not propagate the `FileNotFoundError`: agent construction
happens inside the stage's guarded block, so the failure is recovered as a
stage error note in the errors list and the node returns a normal state
(with the stage not completed and zero retrievals performed). -/
theorem missing_catalog_recovered_counterexample :
    zoning_agent_node store_no_manifest (.ok "response")
        (initial_analysis_state "2512345" "t") =
      ({ initial_analysis_state "2512345" "t" with
          errors := ["Zoning agent error: Skills manifest not found: zonewise/skills/skills-manifest.yaml"] },
       0) := by
  rfl

/-- C9 (amended): a missing manifest is not detected before any stage
runs, and never propagates out of a stage: each stage performs its own
catalog load inside its guarded block and recovers the failure into the
errors list as its prefixed note, leaving the stage uncompleted (first
conjunct).  The run still does not complete: since no stage ever
completes, the sequential loop re-selects the first stage forever,
accumulating one zoning note per attempt, and aborts at the recursion
limit with no report — the caller sees a recursion-limit error, not the
catalog error (closing conjuncts, at recursion limit 25). -/
theorem missing_catalog_recovered_per_stage :
    (∀ store res st, store.manifest = none →
      zoning_agent_node store res st =
        ({ st with errors := st.errors ++
            ["Zoning agent error: Skills manifest not found: zonewise/skills/skills-manifest.yaml"] }, 0) ∧
      valuation_agent_node store res st =
        ({ st with errors := st.errors ++
            ["Valuation agent error: Skills manifest not found: zonewise/skills/skills-manifest.yaml"] }, 0) ∧
      permit_agent_node store res st =
        ({ st with errors := st.errors ++
            ["Permit agent error: Skills manifest not found: zonewise/skills/skills-manifest.yaml"] }, 0) ∧
      envelope_agent_node store res st =
        ({ st with errors := st.errors ++
            ["Envelope agent error: Skills manifest not found: zonewise/skills/skills-manifest.yaml"] }, 0)) ∧
    (run_workflow_loop store_no_manifest allOK 25
        (initial_analysis_state "2512345" "t") 0).isFinished = false ∧
    (run_workflow_loop store_no_manifest allOK 25
        (initial_analysis_state "2512345" "t") 0).state.errors.length = 25 ∧
    (run_workflow_loop store_no_manifest allOK 25
        (initial_analysis_state "2512345" "t") 0).state.errors.head? =
      some "Zoning agent error: Skills manifest not found: zonewise/skills/skills-manifest.yaml" ∧
    (run_workflow_loop store_no_manifest allOK 25
        (initial_analysis_state "2512345" "t") 0).state.final_report = none := by
  refine ⟨?_, rfl, rfl, rfl, rfl⟩
  intro store res st h
  have hst : stage_try store res =
      (.error "Skills manifest not found: zonewise/skills/skills-manifest.yaml", 0) := by
    unfold stage_try create_agent load_manifest
    rw [h]
    rfl
  refine ⟨?_, ?_, ?_, ?_⟩ <;>
    first
    | (unfold zoning_agent_node; rw [hst]; rfl)
    | (unfold valuation_agent_node; rw [hst]; rfl)
    | (unfold permit_agent_node; rw [hst]; rfl)
    | (unfold envelope_agent_node; rw [hst]; rfl)

/-- C9 (witness): the per-stage recovery at the concrete manifest-less
store, for the valuation stage at an arbitrary non-initial state. -/
theorem missing_catalog_recovered_per_stage_witness :
    valuation_agent_node store_no_manifest (.error "never reached")
        (initial_analysis_state "99" "t2") =
      ({ initial_analysis_state "99" "t2" with
          errors := ["Valuation agent error: Skills manifest not found: zonewise/skills/skills-manifest.yaml"] },
       0) :=
  (missing_catalog_recovered_per_stage.1 store_no_manifest (.error "never reached")
    (initial_analysis_state "99" "t2") rfl).2.1

/-- C6: the capability cache is memoized: if a `load_skill_tool` call
leaves `name` cached, a second call on the resulting context returns the
very cached document (behind the already-loaded banner), leaves the
context unchanged, and performs zero retrievals and zero re-parses; the
same holds for `read_reference_tool` keyed by `skill:reference`. -/
theorem capability_cache_memoized :
    (∀ (yaml : YamlFn) store deps name r d1 k sk,
       load_skill_tool yaml store deps name = .ok (r, d1, k) →
       d1.loaded_skills.lookup name = some sk →
       load_skill_tool yaml store d1 name = .ok (hitSkillMsg name sk, d1, 0)) ∧
    (∀ store deps sname rname r d1 k ref,
       read_reference_tool store deps sname rname = .ok (r, d1, k) →
       d1.loaded_references.lookup (sname ++ ":" ++ rname) = some ref →
       read_reference_tool store d1 sname rname = .ok (hitRefMsg ref, d1, 0)) := by
  constructor
  · intro yaml store deps name r d1 k sk _ h2
    unfold load_skill_tool
    rw [h2]
  · intro store deps sname rname r d1 k ref _ h2
    unfold read_reference_tool
    rw [h2]

/-- C6 (witness): after one concrete successful load of each kind, the
second call is a pure cache hit: same cached document, unchanged context,
zero retrievals. -/
theorem capability_cache_memoized_witness :
    load_skill_tool yaml0 storeOK deps_after_skill "zoning-analysis" =
      .ok (hitSkillMsg "zoning-analysis" sk1, deps_after_skill, 0) ∧
    read_reference_tool storeOK deps_after_ref "zoning-analysis" "api_reference.md" =
      .ok (hitRefMsg ref1, deps_after_ref, 0) :=
  ⟨capability_cache_memoized.1 yaml0 storeOK {} "zoning-analysis"
      "# zoning-analysis Skill\n\nBody text" deps_after_skill 2 sk1 rfl rfl,
   capability_cache_memoized.2 storeOK {} "zoning-analysis" "api_reference.md"
      "# Reference: api_reference.md\n\nRef text" deps_after_ref 2 ref1 rfl rfl⟩

/-- C10: in a phased-parallel run where the permit stage fails but
valuation succeeds, the permit slice keeps its defaults (risk score 0,
no open violations), so with `arv` and `max_bid` present the
recommendation is BID — indistinguishable from a verified low-risk
property. -/
theorem permit_failure_still_bids :
    (run_parallel_analysis (.ok (run_zoning_analysis "2512345"))
        (.error "CapabilityError: permit lookup failed")
        (.ok (run_valuation_analysis "2512345" (some [("max_height_ft", 35)])))
        (.ok (run_envelope_analysis "2512345" (some [("max_height_ft", 35)])))
        "2512345" "t").property_data.permit_risk_score = 0 ∧
    (run_parallel_analysis (.ok (run_zoning_analysis "2512345"))
        (.error "CapabilityError: permit lookup failed")
        (.ok (run_valuation_analysis "2512345" (some [("max_height_ft", 35)])))
        (.ok (run_envelope_analysis "2512345" (some [("max_height_ft", 35)])))
        "2512345" "t").property_data.open_violations = [] ∧
    (run_parallel_analysis (.ok (run_zoning_analysis "2512345"))
        (.error "CapabilityError: permit lookup failed")
        (.ok (run_valuation_analysis "2512345" (some [("max_height_ft", 35)])))
        (.ok (run_envelope_analysis "2512345" (some [("max_height_ft", 35)])))
        "2512345" "t").property_data.arv = some 325000 ∧
    (run_parallel_analysis (.ok (run_zoning_analysis "2512345"))
        (.error "CapabilityError: permit lookup failed")
        (.ok (run_valuation_analysis "2512345" (some [("max_height_ft", 35)])))
        (.ok (run_envelope_analysis "2512345" (some [("max_height_ft", 35)])))
        "2512345" "t").property_data.max_bid = some 165000 ∧
    recommendation
      (run_parallel_analysis (.ok (run_zoning_analysis "2512345"))
        (.error "CapabilityError: permit lookup failed")
        (.ok (run_valuation_analysis "2512345" (some [("max_height_ft", 35)])))
        (.ok (run_envelope_analysis "2512345" (some [("max_height_ft", 35)])))
        "2512345" "t").property_data = recBID ∧
    (run_parallel_analysis (.ok (run_zoning_analysis "2512345"))
        (.error "CapabilityError: permit lookup failed")
        (.ok (run_valuation_analysis "2512345" (some [("max_height_ft", 35)])))
        (.ok (run_envelope_analysis "2512345" (some [("max_height_ft", 35)])))
        "2512345" "t").errors =
      ["Permit error: CapabilityError: permit lookup failed"] := by
  refine ⟨rfl, rfl, rfl, rfl, by decide, rfl⟩
